import Mathlib

set_option maxRecDepth 10000

/-!
Shallow embedding of `pymdoccbor/mdoc/issuer.py` (class `MdocCborIssuer`).

Python dicts are modelled as insertion-ordered association lists, CBOR
values as an inductive `CborValue`.  The external collaborators (pycose
key operations, the `MsoIssuer` class and the `cbor2` codec) are modelled
as parameters respectively as a concrete deterministic encoder that
follows cbor2's default (non-canonical, definite-length, shortest-head)
encoding.
-/

/-- CBOR data items as manipulated by the issuer: the value universe of
Python objects that flow through `MdocCborIssuer.new`, `dump`, `dumps`.
Maps are ordered association lists, mirroring Python dict insertion order. -/
inductive CborValue where
  | null : CborValue
  | bool : Bool → CborValue
  | int : Int → CborValue
  | str : String → CborValue
  | bytes : List Nat → CborValue
  | arr : List CborValue → CborValue
  | map : List (CborValue × CborValue) → CborValue
  | tag : Nat → CborValue → CborValue

/-- String-keyed lookup in an ordered association list, the semantics of
`doc["key"]` on a Python dict whose relevant keys are strings
(first match wins; Python dicts cannot hold duplicate keys). -/
def lookupStr : List (CborValue × CborValue) → String → Option CborValue
  | [], _ => none
  | (CborValue.str s, v) :: rest, k => if s = k then some v else lookupStr rest k
  | _ :: rest, k => lookupStr rest k

/-- The entry list of a CBOR map (empty for non-maps). -/
def CborValue.entries : CborValue → List (CborValue × CborValue)
  | .map ps => ps
  | _ => []

/-- Field access `v["k"]` on an (expected) map value. -/
def CborValue.lookupS (v : CborValue) (k : String) : Option CborValue :=
  lookupStr v.entries k

/-- Opaque canonical signing-key handle (`pycose.keys.CoseKey`).
pycose is an external dependency; the handle's payload is inert data. -/
structure CoseKey where
  params : CborValue

/-- Opaque elliptic-curve key representation (`pycose.keys.EC2Key`). -/
structure EC2Key where
  params : CborValue

/-- The pycose operations used by `issuer.py`: `CoseKey.from_dict`,
`EC2Key.encode` and `CoseKey.decode`.  pycose is an external library, so
these are parameters of the development. -/
structure PycoseOps where
  from_dict : CborValue → CoseKey
  ec2_encode : EC2Key → List Nat
  cose_decode : List Nat → CoseKey

/-- The shapes the `private_key` constructor argument can take:
`Union[dict, EC2Key, CoseKey]`, plus `other` for any value of a
different runtime type (the `else` branch of the isinstance chain). -/
inductive PrivateKeyInput where
  | dict : CborValue → PrivateKeyInput
  | ec2 : EC2Key → PrivateKeyInput
  | cose : CoseKey → PrivateKeyInput
  | other : String → PrivateKeyInput

/-- Errors the issuer can raise.  `missingPrivateKey` is the repository's
`MissingPrivateKey` exception (the spec calls it `MissingSigningKey`);
`collaboratorFailure` is any exception escaping the MSO collaborator
(the spec's `CollaboratorIssuanceFailure`); `keyError` is a Python
`KeyError` from `doc["data"]` / `doc["doctype"]`. -/
inductive IssuerError where
  | missingPrivateKey : String → IssuerError
  | collaboratorFailure : String → IssuerError
  | keyError : String → IssuerError
deriving DecidableEq

/-- Instance state of `MdocCborIssuer`: `version`, `status`,
`private_key` and `signed` (a Python dict, initially `{}`). -/
structure MdocCborIssuer where
  version : String
  status : Int
  private_key : CoseKey
  signed : CborValue

/-- `MdocCborIssuer.__init__`: sets `version = '1.0'`, `status = 0`,
normalizes the private key by shape (dict → `CoseKey.from_dict`;
`EC2Key` → encode then `CoseKey.decode`; `CoseKey` → stored as-is;
anything else → raise `MissingPrivateKey`), then sets `signed = {}`. -/
def MdocCborIssuer.init (ops : PycoseOps) (private_key : PrivateKeyInput) :
    Except IssuerError MdocCborIssuer :=
  match private_key with
  | .dict d =>
      .ok { version := "1.0", status := 0, private_key := ops.from_dict d,
            signed := .map [] }
  | .ec2 k =>
      .ok { version := "1.0", status := 0,
            private_key := ops.cose_decode (ops.ec2_encode k),
            signed := .map [] }
  | .cose k =>
      .ok { version := "1.0", status := 0, private_key := k,
            signed := .map [] }
  | .other _ => .error (.missingPrivateKey "You must provide a private key")

/-- The two contracted outputs of the MSO Issuance Collaborator: the
per-namespace disclosure map (`msoi.disclosure_map`, namespace →
insertion-ordered digestID → value) and the encoded signed MSO
(`mso.encode()`). -/
structure MsoOut where
  disclosure_map : List (String × List (Nat × CborValue))
  encoded : List Nat

/-- The MSO Issuance Collaborator (`MsoIssuer(data, private_key)` followed
by `.sign()` and `.encode()`): external code, modelled as a parameter that
either succeeds with both contracted outputs or fails with a message. -/
def Collab : Type := CoseKey → CborValue → Except String MsoOut

/-- The `devicekeyinfo` argument: `Union[dict, CoseKey]`. -/
inductive DeviceKeyInfo where
  | dict : CborValue → DeviceKeyInfo
  | cose : CoseKey → DeviceKeyInfo

/-- Normalization of `devicekeyinfo` at the top of `new`: a dict goes
through `CoseKey.from_dict`, a `CoseKey` passes through. -/
def normalizeDki (ops : PycoseOps) : DeviceKeyInfo → CoseKey
  | .dict d => ops.from_dict d
  | .cose k => k

/-- The `data` argument of `new`: `Union[dict, List[dict]]`.  A single
dict is the attribute data itself; a list holds `{doctype, data}` dicts. -/
inductive DataInput where
  | single : List (CborValue × CborValue) → DataInput
  | batch : List (List (CborValue × CborValue)) → DataInput

/-- The Python value of the `doctype` parameter (`None` becomes CBOR null
when it lands in the `docType` field). -/
def optDoctype : Option String → CborValue
  | none => .null
  | some s => .str s

/-- Input normalization in `new`: `if isinstance(data, dict): data =
[{"doctype": doctype, "data": data}]`; a list passes through unchanged. -/
def normalizeData (data : DataInput) (doctype : Option String) :
    List (List (CborValue × CborValue)) :=
  match data with
  | .single d => [[(.str "doctype", optDoctype doctype), (.str "data", .map d)]]
  | .batch l => l

/-- One document record, as built in the loop body of `new`:
`{'docType': doc["doctype"], 'issuerSigned': {'nameSpaces': {ns: [CBORTag(24, {k: v})
for k, v in dgst.items()] for ns, dgst in msoi.disclosure_map.items()},
'issuerAuth': mso.encode()}}`.  Note the tag 24 content is the singleton
mapping object itself, exactly as in the source. -/
def composeDocument (doctype : CborValue) (m : MsoOut) : CborValue :=
  .map [
    (.str "docType", doctype),
    (.str "issuerSigned", .map [
      (.str "nameSpaces", .map (m.disclosure_map.map (fun p =>
        (.str p.1, .arr (p.2.map (fun q => .tag 24 (.map [(.int q.1, q.2)]))))))),
      (.str "issuerAuth", .bytes m.encoded)
    ])
  ]

/-- Processing of one batch element in `new`'s loop, in source order:
`doc["data"]` (may raise KeyError), the collaborator call (may raise),
`doc["doctype"]` (may raise KeyError), then document composition. -/
def processDoc (collab : Collab) (key : CoseKey)
    (doc : List (CborValue × CborValue)) : Except IssuerError CborValue :=
  match lookupStr doc "data" with
  | none => .error (.keyError "data")
  | some dataV =>
    match collab key dataV with
    | .error msg => .error (.collaboratorFailure msg)
    | .ok m =>
      match lookupStr doc "doctype" with
      | none => .error (.keyError "doctype")
      | some dt => .ok (composeDocument dt m)

/-- The `for doc in data` loop of `new`: documents are accumulated in
input order; the first exception aborts the whole loop. -/
def processDocs (collab : Collab) (key : CoseKey) :
    List (List (CborValue × CborValue)) → Except IssuerError (List CborValue)
  | [] => .ok []
  | doc :: rest =>
    match processDoc collab key doc with
    | .error e => .error e
    | .ok d =>
      match processDocs collab key rest with
      | .error e => .error e
      | .ok ds => .ok (d :: ds)

/-- `MdocCborIssuer.new`: normalizes `devicekeyinfo` (never used
afterwards — the deviceSigned field is commented out in the source),
normalizes `data`, runs the loop, and only on full success assigns
`self.signed = {'version': ..., 'documents': ..., 'status': ...}` and
returns it.  On an exception the instance state is left untouched, so
the result is the (possibly unchanged) state paired with the outcome. -/
def MdocCborIssuer.new (collab : Collab) (ops : PycoseOps)
    (iss : MdocCborIssuer) (data : DataInput)
    (devicekeyinfo : DeviceKeyInfo) (doctype : Option String) :
    MdocCborIssuer × Except IssuerError CborValue :=
  let _dki := normalizeDki ops devicekeyinfo
  match processDocs collab iss.private_key (normalizeData data doctype) with
  | .error e => (iss, .error e)
  | .ok documents =>
    let signed : CborValue := .map [
      (.str "version", .str iss.version),
      (.str "documents", .arr documents),
      (.str "status", .int iss.status)
    ]
    ({ iss with signed := signed }, .ok signed)

/-- Big-endian base-256 digits of `n`, padded/truncated to `k` bytes. -/
def beBytes : Nat → Nat → List Nat
  | 0, _ => []
  | k + 1, n => beBytes k (n / 256) ++ [n % 256]

/-- CBOR head for major type `major` and argument `n`, shortest form,
as emitted by cbor2's default encoder. -/
def encodeHead (major : Nat) (n : Nat) : List Nat :=
  if n < 24 then [major * 32 + n]
  else if n < 256 then [major * 32 + 24, n]
  else if n < 65536 then (major * 32 + 25) :: beBytes 2 n
  else if n < 4294967296 then (major * 32 + 26) :: beBytes 4 n
  else (major * 32 + 27) :: beBytes 8 n

/-- UTF-8 bytes of one character. -/
def utf8Char (c : Char) : List Nat :=
  let n := c.toNat
  if n < 128 then [n]
  else if n < 2048 then [192 + n / 64, 128 + n % 64]
  else if n < 65536 then [224 + n / 4096, 128 + (n / 64) % 64, 128 + n % 64]
  else [240 + n / 262144, 128 + (n / 4096) % 64, 128 + (n / 64) % 64, 128 + n % 64]

/-- UTF-8 bytes of a string. -/
def utf8Bytes (s : String) : List Nat :=
  (s.data.map utf8Char).flatten

mutual

/-- cbor2's default encoding (`cbor2.dumps`): deterministic,
definite-length, shortest-head, dict entries in insertion order. -/
def cborEncode : CborValue → List Nat
  | .null => [246]
  | .bool false => [244]
  | .bool true => [245]
  | .int i => if 0 ≤ i then encodeHead 0 i.toNat else encodeHead 1 (-1 - i).toNat
  | .bytes bs => encodeHead 2 bs.length ++ bs
  | .str s => encodeHead 3 (utf8Bytes s).length ++ utf8Bytes s
  | .arr xs => encodeHead 4 xs.length ++ cborEncodeList xs
  | .map ps => encodeHead 5 ps.length ++ cborEncodePairs ps
  | .tag t v => encodeHead 6 t ++ cborEncode v
termination_by structural v => v

/-- Concatenated encodings of an array's elements. -/
def cborEncodeList : List CborValue → List Nat
  | [] => []
  | x :: xs => cborEncode x ++ cborEncodeList xs
termination_by structural l => l

/-- Concatenated key/value encodings of a map's entries. -/
def cborEncodePairs : List (CborValue × CborValue) → List Nat
  | [] => []
  | (k, v) :: ps => cborEncode k ++ cborEncode v ++ cborEncodePairs ps
termination_by structural l => l

end

/-- `MdocCborIssuer.dump`: `cbor2.dumps(self.signed)`. -/
def MdocCborIssuer.dump (iss : MdocCborIssuer) : List Nat :=
  cborEncode iss.signed

/-- One lowercase hexadecimal digit, as produced by `binascii.hexlify`. -/
def hexDigitChar (n : Nat) : Char :=
  if n < 10 then Char.ofNat (48 + n) else Char.ofNat (97 + (n - 10))

/-- `binascii.hexlify`: two lowercase hex digits per byte, in order. -/
def hexlify (bs : List Nat) : String :=
  ⟨bs.foldr (fun b acc => hexDigitChar (b / 16) :: hexDigitChar (b % 16) :: acc) []⟩

/-- `MdocCborIssuer.dumps`: `binascii.hexlify(cbor2.dumps(self.signed))`. -/
def MdocCborIssuer.dumps (iss : MdocCborIssuer) : String :=
  hexlify (cborEncode iss.signed)

/-- The `documents` field of an envelope value (empty list if absent). -/
def docsOf (env : CborValue) : List CborValue :=
  match env.lookupS "documents" with
  | some (.arr ds) => ds
  | _ => []

/-- The `docType` field of a document value. -/
def docTypeOf (d : CborValue) : Option CborValue :=
  d.lookupS "docType"

/-- The `issuerSigned.nameSpaces` field of a document value. -/
def nameSpacesOf (d : CborValue) : Option CborValue :=
  (d.lookupS "issuerSigned").bind (fun x => x.lookupS "nameSpaces")


/-- Concrete pycose operations used by witnesses: inert data shuffling. -/
def sampleOps : PycoseOps :=
  ⟨fun d => ⟨d⟩, fun k => cborEncode k.params, fun bs => ⟨.bytes bs⟩⟩

/-- A concrete canonical key handle. -/
def sampleKey : CoseKey := ⟨.map [(.int 1, .int 2)]⟩

/-- A second concrete canonical key handle, distinct from `sampleKey`. -/
def sampleKey2 : CoseKey := ⟨.map [(.int 1, .int 3)]⟩

/-- A concrete collaborator output: one namespace with two digests. -/
def sampleMso : MsoOut :=
  ⟨[("org.iso.18013.5.1", [(0, .str "ALICE"), (7, .str "DOE")])], [1, 2, 3]⟩

/-- A collaborator that always succeeds with `sampleMso`. -/
def sampleCollab : Collab := fun _ _ => .ok sampleMso

/-- A collaborator that always fails, with a fixed message. -/
def failingCollab : Collab := fun _ _ => .error "signing backend failure"

/-- Concrete attribute data: one namespace, one attribute. -/
def sampleData : List (CborValue × CborValue) :=
  [(.str "org.iso.18013.5.1", .map [(.str "given_name", .str "ALICE")])]

/-- A concrete well-formed batch element. -/
def sampleDoc : List (CborValue × CborValue) :=
  [(.str "doctype", .str "org.iso.18013.5.1.mDL"), (.str "data", .map sampleData)]

/-- A batch element with no "doctype" key. -/
def docMissingDoctype : List (CborValue × CborValue) :=
  [(.str "data", .map sampleData)]

/-- A freshly constructed issuer holding `sampleKey` and `signed = {}`. -/
def sampleIssuer : MdocCborIssuer := ⟨"1.0", 0, sampleKey, .map []⟩

/-- A second fresh issuer, same empty `signed`, different key. -/
def sampleIssuer2 : MdocCborIssuer := ⟨"1.0", 0, sampleKey2, .map []⟩

/-- A concrete devicekeyinfo argument. -/
def sampleDki : DeviceKeyInfo := .cose sampleKey2

/-- Successful lookups and collaborator call determine `processDoc`. -/
theorem processDoc_eq_ok {collab : Collab} {key : CoseKey}
    {doc : List (CborValue × CborValue)} {dv : CborValue} {m : MsoOut}
    {dt : CborValue}
    (h1 : lookupStr doc "data" = some dv) (h2 : collab key dv = .ok m)
    (h3 : lookupStr doc "doctype" = some dt) :
    processDoc collab key doc = .ok (composeDocument dt m) := by
  unfold processDoc
  simp only [h1, h2, h3]

/-- A successful `processDoc` came from successful lookups and a successful
collaborator call, and produced exactly the composed document. -/
theorem processDoc_ok_inv {collab : Collab} {key : CoseKey}
    {doc : List (CborValue × CborValue)} {d : CborValue}
    (h : processDoc collab key doc = .ok d) :
    ∃ dv m dt, lookupStr doc "data" = some dv ∧ collab key dv = .ok m ∧
      lookupStr doc "doctype" = some dt ∧ d = composeDocument dt m := by
  unfold processDoc at h
  cases h1 : lookupStr doc "data" with
  | none => simp only [h1] at h; exact Except.noConfusion h
  | some dv =>
    simp only [h1] at h
    cases h2 : collab key dv with
    | error e => simp only [h2] at h; exact Except.noConfusion h
    | ok m =>
      simp only [h2] at h
      cases h3 : lookupStr doc "doctype" with
      | none => simp only [h3] at h; exact Except.noConfusion h
      | some dt =>
        simp only [h3] at h
        cases h
        exact ⟨dv, m, dt, rfl, h2, rfl, rfl⟩

/-- A successful loop run yields one output document per input element,
in order, each produced by `processDoc` on the matching element. -/
theorem processDocs_ok_get {collab : Collab} {key : CoseKey}
    {l : List (List (CborValue × CborValue))} {ds : List CborValue}
    (h : processDocs collab key l = .ok ds) :
    ds.length = l.length ∧
    ∀ i (hi : i < l.length) (hd : i < ds.length),
      processDoc collab key (l.get ⟨i, hi⟩) = .ok (ds.get ⟨i, hd⟩) := by
  induction l generalizing ds with
  | nil =>
    unfold processDocs at h
    cases h
    exact ⟨rfl, fun i hi => absurd hi (by simp)⟩
  | cons doc rest ih =>
    unfold processDocs at h
    cases hpd : processDoc collab key doc with
    | error e => simp only [hpd] at h; exact Except.noConfusion h
    | ok d =>
      simp only [hpd] at h
      cases hpr : processDocs collab key rest with
      | error e => simp only [hpr] at h; exact Except.noConfusion h
      | ok ds2 =>
        simp only [hpr] at h
        cases h
        obtain ⟨hlen, hget⟩ := ih hpr
        refine ⟨by simp [hlen], ?_⟩
        intro i hi hd
        match i with
        | 0 => simpa using hpd
        | j + 1 =>
          simpa using hget j (by simpa using hi) (by simpa using hd)

/-- The envelope dict assembled at the end of a successful `new`:
`{'version': ..., 'documents': ..., 'status': ...}`. -/
def envelopeOf (version : String) (status : Int) (ds : List CborValue) :
    CborValue :=
  .map [(.str "version", .str version),
        (.str "documents", .arr ds),
        (.str "status", .int status)]

/-- A successful `new` call came from a successful loop run, returned the
envelope over the loop output and stored exactly that envelope. -/
theorem new_ok_inv {collab : Collab} {ops : PycoseOps} {iss : MdocCborIssuer}
    {data : DataInput} {dki : DeviceKeyInfo} {dt : Option String}
    {st : MdocCborIssuer} {r : CborValue}
    (h : MdocCborIssuer.new collab ops iss data dki dt = (st, .ok r)) :
    ∃ ds, processDocs collab iss.private_key (normalizeData data dt) = .ok ds ∧
      r = envelopeOf iss.version iss.status ds ∧
      st = { iss with signed := r } := by
  unfold MdocCborIssuer.new at h
  cases hp : processDocs collab iss.private_key (normalizeData data dt) with
  | error e =>
    simp only [hp, Prod.mk.injEq] at h
    exact Except.noConfusion h.2
  | ok ds =>
    simp only [hp, Prod.mk.injEq] at h
    obtain ⟨h1, h2⟩ := h
    injection h2 with h2
    subst h2
    exact ⟨ds, rfl, rfl, h1.symm⟩

/-- Reading back the `documents` field of an assembled envelope. -/
theorem docsOf_envelopeOf (v : String) (s : Int) (ds : List CborValue) :
    docsOf (envelopeOf v s ds) = ds := rfl

/-- Reading back the `docType` field of a composed document. -/
theorem docTypeOf_composeDocument (dt : CborValue) (m : MsoOut) :
    docTypeOf (composeDocument dt m) = some dt := rfl

/-- Reading back `issuerSigned.nameSpaces` of a composed document. -/
theorem nameSpacesOf_composeDocument (dt : CborValue) (m : MsoOut) :
    nameSpacesOf (composeDocument dt m) =
      some (.map (m.disclosure_map.map (fun p =>
        (.str p.1, .arr (p.2.map (fun q =>
          CborValue.tag 24 (.map [(.int q.1, q.2)]))))))) := rfl

/-- Claim C4: issuer construction normalizes the signing key by shape — a
raw key-parameter mapping is parsed via `CoseKey.from_dict`; an EC2 key is
encoded to wire form and re-parsed via `CoseKey.decode` (round-trip, not a
direct conversion); an already-canonical `CoseKey` is stored unchanged;
every other input raises `MissingPrivateKey` (the spec's name is
`MissingSigningKey`) and no issuer is produced. -/
theorem claim_C4 (ops : PycoseOps) (d : CborValue) (k : EC2Key) (c : CoseKey)
    (s : String) :
    MdocCborIssuer.init ops (.dict d) =
      .ok { version := "1.0", status := 0, private_key := ops.from_dict d,
            signed := .map [] } ∧
    MdocCborIssuer.init ops (.ec2 k) =
      .ok { version := "1.0", status := 0,
            private_key := ops.cose_decode (ops.ec2_encode k),
            signed := .map [] } ∧
    MdocCborIssuer.init ops (.cose c) =
      .ok { version := "1.0", status := 0, private_key := c,
            signed := .map [] } ∧
    MdocCborIssuer.init ops (.other s) =
      .error (.missingPrivateKey "You must provide a private key") :=
  ⟨rfl, rfl, rfl, rfl⟩

/-- Claim C9: the outcome of `new` — returned state and returned envelope —
is independent of the `devicekeyinfo` argument: it is normalized and then
never incorporated into the emitted document. -/
theorem claim_C9 (collab : Collab) (ops : PycoseOps) (iss : MdocCborIssuer)
    (data : DataInput) (dki dki' : DeviceKeyInfo) (dt : Option String) :
    MdocCborIssuer.new collab ops iss data dki dt =
      MdocCborIssuer.new collab ops iss data dki' dt := rfl

/-- Claim C2: a successful `new` on a batch of N elements yields an
envelope whose `documents` has length N, with `documents[i].docType`
equal to input element i's doctype value for every i; and on the empty
batch every successful call yields `documents == []`. -/
theorem claim_C2 (collab : Collab) (ops : PycoseOps) (iss : MdocCborIssuer)
    (l : List (List (CborValue × CborValue))) (dki : DeviceKeyInfo)
    (dt : Option String) (st : MdocCborIssuer) (r : CborValue)
    (h : MdocCborIssuer.new collab ops iss (.batch l) dki dt = (st, .ok r)) :
    (docsOf r).length = l.length ∧
    (∀ i (hi : i < l.length), ∃ d, (docsOf r).get? i = some d ∧
      docTypeOf d = lookupStr (l.get ⟨i, hi⟩) "doctype") ∧
    (∀ st0 r0,
      MdocCborIssuer.new collab ops iss (.batch []) dki dt = (st0, .ok r0) →
      docsOf r0 = []) := by
  obtain ⟨ds, hp, hr, hst⟩ := new_ok_inv h
  have hnorm : normalizeData (.batch l) dt = l := rfl
  rw [hnorm] at hp
  have hdr : docsOf r = ds := by rw [hr]; exact docsOf_envelopeOf ..
  obtain ⟨hlen, hget⟩ := processDocs_ok_get hp
  refine ⟨by rw [hdr, hlen], ?_, ?_⟩
  · intro i hi
    have hdi : i < ds.length := by rw [hlen]; exact hi
    have hpd := hget i hi hdi
    obtain ⟨dv, m, dtv, hv1, hv2, hv3, hcomp⟩ := processDoc_ok_inv hpd
    refine ⟨ds.get ⟨i, hdi⟩, ?_, ?_⟩
    · rw [hdr]; exact List.get?_eq_get hdi
    · rw [hcomp, docTypeOf_composeDocument, hv3]
  · intro st0 r0 h0
    obtain ⟨ds0, hp0, hr0, _⟩ := new_ok_inv h0
    have : Except.ok (ε := IssuerError) ([] : List CborValue) = .ok ds0 := hp0
    injection this with this
    rw [hr0, docsOf_envelopeOf, ← this]

/-- Sample document type string used by the concrete scenarios. -/
def sampleDt : CborValue := .str "org.iso.18013.5.1.mDL"

/-- The envelope produced by a one-element sample batch. -/
def sampleEnv : CborValue :=
  envelopeOf "1.0" 0 [composeDocument sampleDt sampleMso]

/-- Issuer state after the one-element sample batch. -/
def sampleSt1 : MdocCborIssuer := { sampleIssuer with signed := sampleEnv }

/-- The envelope produced by a two-element sample batch. -/
def sampleEnv2 : CborValue :=
  envelopeOf "1.0" 0
    [composeDocument sampleDt sampleMso, composeDocument sampleDt sampleMso]

/-- Issuer state after the two-element sample batch. -/
def sampleSt2 : MdocCborIssuer := { sampleSt1 with signed := sampleEnv2 }

/-- Witness for C2 at a concrete one-element batch. -/
theorem claim_C2_witness :
    (docsOf sampleEnv).length = [sampleDoc].length ∧
    (∀ i (hi : i < [sampleDoc].length), ∃ d, (docsOf sampleEnv).get? i = some d ∧
      docTypeOf d = lookupStr ([sampleDoc].get ⟨i, hi⟩) "doctype") ∧
    (∀ st0 r0,
      MdocCborIssuer.new sampleCollab sampleOps sampleIssuer (.batch []) sampleDki
        none = (st0, .ok r0) → docsOf r0 = []) :=
  claim_C2 sampleCollab sampleOps sampleIssuer [sampleDoc] sampleDki none
    sampleSt1 sampleEnv rfl

/-- Claim C3: every successful `new` replaces the stored envelope
wholesale: after a call on batchA and then a successful call on batchB,
the stored envelope is the second result and its document count is
`batchB.length`, never `batchA.length + batchB.length`. -/
theorem claim_C3 (collab : Collab) (ops : PycoseOps)
    (iss0 iss1 iss2 : MdocCborIssuer)
    (batchA batchB : List (List (CborValue × CborValue)))
    (dki1 dki2 : DeviceKeyInfo) (dtA dtB : Option String)
    (rA : Except IssuerError CborValue) (rB : CborValue)
    (h1 : MdocCborIssuer.new collab ops iss0 (.batch batchA) dki1 dtA = (iss1, rA))
    (h2 : MdocCborIssuer.new collab ops iss1 (.batch batchB) dki2 dtB =
      (iss2, .ok rB)) :
    iss2.signed = rB ∧
    (docsOf iss2.signed).length = batchB.length ∧
    (batchA ≠ [] →
      (docsOf iss2.signed).length ≠ batchA.length + batchB.length) := by
  obtain ⟨ds, hp, hr, hst⟩ := new_ok_inv h2
  have hnorm : normalizeData (.batch batchB) dtB = batchB := rfl
  rw [hnorm] at hp
  have hsig : iss2.signed = rB := by rw [hst]
  have hlen := (processDocs_ok_get hp).1
  have hcount : (docsOf iss2.signed).length = batchB.length := by
    rw [hsig, hr, docsOf_envelopeOf, hlen]
  refine ⟨hsig, hcount, ?_⟩
  intro hA
  have : 0 < batchA.length := List.length_pos.mpr hA
  omega

/-- Witness for C3: one-element batch then two-element batch; the stored
count is 2, not 3. -/
theorem claim_C3_witness :
    sampleSt2.signed = sampleEnv2 ∧
    (docsOf sampleSt2.signed).length = [sampleDoc, sampleDoc].length ∧
    ([sampleDoc] ≠ [] →
      (docsOf sampleSt2.signed).length ≠
        [sampleDoc].length + [sampleDoc, sampleDoc].length) :=
  claim_C3 sampleCollab sampleOps sampleIssuer sampleSt1 sampleSt2
    [sampleDoc] [sampleDoc, sampleDoc] sampleDki sampleDki none none
    (.ok sampleEnv) sampleEnv2 rfl rfl

/-- Claim C5: a single mapping is wrapped into a one-element batch keyed
by the separately supplied doctype, and with no doctype supplied the call
is accepted and the resulting single document carries docType null. -/
theorem claim_C5 (collab : Collab) (ops : PycoseOps) (iss : MdocCborIssuer)
    (d : List (CborValue × CborValue)) (dki : DeviceKeyInfo)
    (dt : Option String) (st : MdocCborIssuer) (r : CborValue)
    (h : MdocCborIssuer.new collab ops iss (.single d) dki none = (st, .ok r)) :
    (MdocCborIssuer.new collab ops iss (.single d) dki dt =
      MdocCborIssuer.new collab ops iss
        (.batch [[(.str "doctype", optDoctype dt), (.str "data", .map d)]])
        dki dt) ∧
    ∃ doc, docsOf r = [doc] ∧ docTypeOf doc = some .null := by
  refine ⟨rfl, ?_⟩
  obtain ⟨ds, hp, hr, _⟩ := new_ok_inv h
  have hnorm : normalizeData (.single d) none =
      [[(.str "doctype", CborValue.null), (.str "data", .map d)]] := rfl
  rw [hnorm] at hp
  obtain ⟨hlen, hget⟩ := processDocs_ok_get hp
  have h0 : 0 < ds.length := by simp [hlen]
  have hpd := hget 0 (by simp) h0
  obtain ⟨dv, m, dtv, hv1, hv2, hv3, hcomp⟩ := processDoc_ok_inv hpd
  have hnull : some CborValue.null = some dtv := hv3
  injection hnull with hnull
  obtain ⟨a, ha⟩ := List.length_eq_one.mp (by rw [hlen]; rfl)
  have hdr : docsOf r = ds := by rw [hr]; exact docsOf_envelopeOf ..
  subst ha
  refine ⟨a, by rw [hdr], ?_⟩
  have hget0 : ([a] : List CborValue).get ⟨0, h0⟩ = a := rfl
  rw [hget0] at hcomp
  rw [hcomp, docTypeOf_composeDocument, ← hnull]

/-- The envelope produced by the sample single-mapping call without a
doctype. -/
def sampleSingleEnv : CborValue :=
  envelopeOf "1.0" 0 [composeDocument .null sampleMso]

/-- Witness for C5 at a concrete single-mapping call without doctype. -/
theorem claim_C5_witness :
    (MdocCborIssuer.new sampleCollab sampleOps sampleIssuer (.single sampleData)
        sampleDki none =
      MdocCborIssuer.new sampleCollab sampleOps sampleIssuer
        (.batch [[(.str "doctype", optDoctype none),
                  (.str "data", .map sampleData)]]) sampleDki none) ∧
    ∃ doc, docsOf sampleSingleEnv = [doc] ∧ docTypeOf doc = some .null :=
  claim_C5 sampleCollab sampleOps sampleIssuer sampleData sampleDki none
    { sampleIssuer with signed := sampleSingleEnv } sampleSingleEnv rfl

/-- When every element before `doc` processes successfully and `doc`
itself fails, the whole loop fails with the error `doc` raised. -/
theorem processDocs_error_mid {collab : Collab} {key : CoseKey}
    (fore aft : List (List (CborValue × CborValue)))
    (doc : List (CborValue × CborValue)) {e : IssuerError}
    (hok : ∀ x ∈ fore, ∃ v, processDoc collab key x = Except.ok v)
    (herr : processDoc collab key doc = .error e) :
    processDocs collab key (fore ++ doc :: aft) = .error e := by
  induction fore with
  | nil =>
    simp only [List.nil_append]
    unfold processDocs
    simp only [herr]
  | cons x rest ih =>
    obtain ⟨v, hv⟩ := hok x (by simp)
    have ih2 := ih (fun y hy => hok y (by simp [hy]))
    simp only [List.cons_append]
    unfold processDocs
    simp only [hv, ih2]

/-- Claim C8: a failure while processing any batch element makes `new`
return the failure with the instance state — hence any previously stored
envelope — unchanged, and a collaborator failure is propagated with its
message unmodified, wrapped as the collaborator failure of that call. -/
theorem claim_C8 (collab : Collab) (ops : PycoseOps) (iss : MdocCborIssuer)
    (data : DataInput) (dki : DeviceKeyInfo) (dt : Option String) :
    (∀ e, processDocs collab iss.private_key (normalizeData data dt) =
        .error e →
      MdocCborIssuer.new collab ops iss data dki dt = (iss, .error e)) ∧
    (∀ fore doc aft dv msg,
      (∀ x ∈ fore, ∃ v, processDoc collab iss.private_key x = Except.ok v) →
      lookupStr doc "data" = some dv →
      collab iss.private_key dv = .error msg →
      MdocCborIssuer.new collab ops iss (.batch (fore ++ doc :: aft)) dki dt =
        (iss, .error (.collaboratorFailure msg))) := by
  constructor
  · intro e he
    unfold MdocCborIssuer.new
    simp only [he]
  · intro fore doc aft dv msg hok hdv hmsg
    have herr : processDoc collab iss.private_key doc =
        .error (.collaboratorFailure msg) := by
      unfold processDoc
      simp only [hdv, hmsg]
    have hall := processDocs_error_mid fore aft doc hok herr
    unfold MdocCborIssuer.new
    simp only [normalizeData, hall]

/-- Witness for C8: a one-element batch whose collaborator call fails;
the issuer state comes back unchanged and the message is preserved. -/
theorem claim_C8_witness :
    MdocCborIssuer.new failingCollab sampleOps sampleIssuer
        (.batch [sampleDoc]) sampleDki none =
      (sampleIssuer, .error (.collaboratorFailure "signing backend failure")) :=
  (claim_C8 failingCollab sampleOps sampleIssuer (.batch [sampleDoc])
      sampleDki none).2
    [] sampleDoc [] (.map sampleData) "signing backend failure"
    (fun x hx => absurd hx (List.not_mem_nil x)) rfl rfl

/-- If the collaborator succeeds on every element whose "data" key is
present, but some element lacks "data" or "doctype", the loop fails
with a `KeyError` on one of exactly those two keys. -/
theorem processDocs_keyError {collab : Collab} {key : CoseKey}
    {l : List (List (CborValue × CborValue))}
    (hcollab : ∀ doc ∈ l, ∀ dv, lookupStr doc "data" = some dv →
      ∃ m, collab key dv = Except.ok m)
    (hmiss : ∃ doc ∈ l,
      lookupStr doc "data" = none ∨ lookupStr doc "doctype" = none) :
    ∃ k, processDocs collab key l = .error (.keyError k) ∧
      (k = "data" ∨ k = "doctype") := by
  induction l with
  | nil =>
    obtain ⟨doc, hx, _⟩ := hmiss
    exact absurd hx (List.not_mem_nil doc)
  | cons doc rest ih =>
    cases h1 : lookupStr doc "data" with
    | none =>
      refine ⟨"data", ?_, Or.inl rfl⟩
      unfold processDocs processDoc
      simp only [h1]
    | some dv =>
      obtain ⟨m, hm⟩ := hcollab doc (by simp) dv h1
      cases h3 : lookupStr doc "doctype" with
      | none =>
        refine ⟨"doctype", ?_, Or.inr rfl⟩
        unfold processDocs processDoc
        simp only [h1, hm, h3]
      | some dtv =>
        have hpd : processDoc collab key doc = .ok (composeDocument dtv m) :=
          processDoc_eq_ok h1 hm h3
        have hmiss2 : ∃ x ∈ rest,
            lookupStr x "data" = none ∨ lookupStr x "doctype" = none := by
          obtain ⟨x, hx, hor⟩ := hmiss
          rcases List.mem_cons.mp hx with hhead | hxr
          · subst hhead
            rcases hor with hh | hh
            · rw [h1] at hh; exact Option.noConfusion hh
            · rw [h3] at hh; exact Option.noConfusion hh
          · exact ⟨x, hxr, hor⟩
        obtain ⟨k, hk, hkor⟩ :=
          ih (fun y hy => hcollab y (by simp [hy])) hmiss2
        refine ⟨k, ?_, hkor⟩
        unfold processDocs
        simp only [hpd, hk]

/-- If every element carries both keys and the collaborator succeeds on
every "data" value, the whole loop succeeds. -/
theorem processDocs_all_ok {collab : Collab} {key : CoseKey}
    {l : List (List (CborValue × CborValue))}
    (hcollab : ∀ doc ∈ l, ∀ dv, lookupStr doc "data" = some dv →
      ∃ m, collab key dv = Except.ok m)
    (hkeys : ∀ doc ∈ l, (∃ v, lookupStr doc "data" = some v) ∧
      (∃ w, lookupStr doc "doctype" = some w)) :
    ∃ ds, processDocs collab key l = .ok ds := by
  induction l with
  | nil => exact ⟨[], rfl⟩
  | cons doc rest ih =>
    obtain ⟨⟨dv, h1⟩, ⟨w, h3⟩⟩ := hkeys doc (by simp)
    obtain ⟨m, hm⟩ := hcollab doc (by simp) dv h1
    obtain ⟨ds, hds⟩ :=
      ih (fun y hy => hcollab y (by simp [hy]))
        (fun y hy => hkeys y (by simp [hy]))
    refine ⟨composeDocument w m :: ds, ?_⟩
    unfold processDocs
    simp only [processDoc_eq_ok h1 hm h3, hds]

/-- Claim C10: every batch element is accessed by the literal keys "data"
and "doctype" without a guard, so (with a collaborator that succeeds on
available data) an element missing either key makes `new` raise a
`KeyError` on one of those keys, and when every element has both keys
these lookups never fail and the call succeeds. -/
theorem claim_C10 (collab : Collab) (ops : PycoseOps) (iss : MdocCborIssuer)
    (l : List (List (CborValue × CborValue))) (dki : DeviceKeyInfo)
    (dt : Option String)
    (hcollab : ∀ doc ∈ l, ∀ dv, lookupStr doc "data" = some dv →
      ∃ m, collab iss.private_key dv = Except.ok m) :
    ((∃ doc ∈ l, lookupStr doc "data" = none ∨
        lookupStr doc "doctype" = none) →
      ∃ k, (MdocCborIssuer.new collab ops iss (.batch l) dki dt).2 =
        .error (.keyError k) ∧ (k = "data" ∨ k = "doctype")) ∧
    ((∀ doc ∈ l, (∃ v, lookupStr doc "data" = some v) ∧
        (∃ w, lookupStr doc "doctype" = some w)) →
      ∃ st r, MdocCborIssuer.new collab ops iss (.batch l) dki dt =
        (st, .ok r)) := by
  constructor
  · intro hmiss
    obtain ⟨k, hk, hkor⟩ := processDocs_keyError hcollab hmiss
    refine ⟨k, ?_, hkor⟩
    unfold MdocCborIssuer.new
    simp only [normalizeData, hk]
  · intro hkeys
    obtain ⟨ds, hds⟩ := processDocs_all_ok hcollab hkeys
    have hnew : MdocCborIssuer.new collab ops iss (.batch l) dki dt =
        ({ iss with signed := envelopeOf iss.version iss.status ds },
         .ok (envelopeOf iss.version iss.status ds)) := by
      unfold MdocCborIssuer.new
      simp only [normalizeData, hds]
      rfl
    exact ⟨_, _, hnew⟩

/-- Witness for C10: a one-element batch whose element lacks "doctype"
raises a KeyError. -/
theorem claim_C10_witness :
    ∃ k, (MdocCborIssuer.new sampleCollab sampleOps sampleIssuer
        (.batch [docMissingDoctype]) sampleDki none).2 =
      .error (.keyError k) ∧ (k = "data" ∨ k = "doctype") :=
  (claim_C10 sampleCollab sampleOps sampleIssuer [docMissingDoctype]
      sampleDki none (fun _ _ _ _ => ⟨sampleMso, rfl⟩)).1
    ⟨docMissingDoctype, by simp, Or.inr rfl⟩

/-- Whether a value is tag-wrapped content that is a byte string (the
shape the claim's reading of "encoded-CBOR-bytestring" would require). -/
def tagContentIsBytes : CborValue → Bool
  | .tag _ (.bytes _) => true
  | _ => false

/-- The first entry of the first namespace sequence of a document. -/
def firstNsEntry (d : CborValue) : Option CborValue :=
  match nameSpacesOf d with
  | some (.map ((_, .arr (e :: _)) :: _)) => some e
  | _ => none

/-- Counterexample to C1 as stated: at a concrete processed document the
emitted namespace entry is tag 24 over the (digestID → value) singleton
mapping itself, not over a byte string holding a nested CBOR encoding. -/
theorem claim_C1_counterexample :
    processDoc sampleCollab sampleKey sampleDoc =
      .ok (composeDocument sampleDt sampleMso) ∧
    firstNsEntry (composeDocument sampleDt sampleMso) =
      some (.tag 24 (.map [(.int 0, .str "ALICE")])) ∧
    tagContentIsBytes (.tag 24 (.map [(.int 0, .str "ALICE")])) = false :=
  ⟨rfl, rfl, rfl⟩

/-- Claim C1 (amended): for every document a successful `new` emits, each
namespace of `issuerSigned.nameSpaces` maps to an ordered sequence with
exactly one entry per digest of the collaborator's disclosure map for that
namespace, each entry being the (digestID → value) singleton mapping
wrapped directly in CBOR tag 24 (the tag content is that mapping object,
not a pre-encoded byte string), with the disclosure map's iteration order
preserved verbatim, namespaces and digests alike. -/
theorem claim_C1_amended (collab : Collab) (ops : PycoseOps)
    (iss : MdocCborIssuer) (l : List (List (CborValue × CborValue)))
    (dki : DeviceKeyInfo) (dt : Option String) (st : MdocCborIssuer)
    (r : CborValue) (i : Nat) (hi : i < l.length) (dv : CborValue)
    (m : MsoOut)
    (h : MdocCborIssuer.new collab ops iss (.batch l) dki dt = (st, .ok r))
    (h1 : lookupStr (l.get ⟨i, hi⟩) "data" = some dv)
    (h2 : collab iss.private_key dv = .ok m) :
    ∃ d nsOut, (docsOf r).get? i = some d ∧
      nameSpacesOf d = some (.map nsOut) ∧
      nsOut.length = m.disclosure_map.length ∧
      nsOut.map Prod.fst = m.disclosure_map.map (fun p => CborValue.str p.1) ∧
      ∀ j (hj1 : j < nsOut.length) (hj2 : j < m.disclosure_map.length),
        (nsOut.get ⟨j, hj1⟩).2 =
          .arr ((m.disclosure_map.get ⟨j, hj2⟩).2.map (fun q =>
            CborValue.tag 24 (.map [(.int q.1, q.2)]))) := by
  obtain ⟨ds, hp, hr, _⟩ := new_ok_inv h
  have hnorm : normalizeData (.batch l) dt = l := rfl
  rw [hnorm] at hp
  obtain ⟨hlen, hget⟩ := processDocs_ok_get hp
  have hdi : i < ds.length := by rw [hlen]; exact hi
  have hpd := hget i hi hdi
  obtain ⟨dv2, m2, dtv, hv1, hv2, hv3, hcomp⟩ := processDoc_ok_inv hpd
  have hdv : dv2 = dv := by
    rw [h1] at hv1
    injection hv1 with hv1
    exact hv1.symm
  rw [hdv] at hv2
  have hm : m2 = m := by
    rw [h2] at hv2
    injection hv2 with hv2
    exact hv2.symm
  rw [hm] at hcomp
  have hdr : docsOf r = ds := by rw [hr]; exact docsOf_envelopeOf ..
  refine ⟨ds.get ⟨i, hdi⟩,
    m.disclosure_map.map (fun p =>
      (CborValue.str p.1, CborValue.arr (p.2.map (fun q =>
        CborValue.tag 24 (.map [(.int q.1, q.2)]))))), ?_, ?_, ?_, ?_, ?_⟩
  · rw [hdr]; exact List.get?_eq_get hdi
  · rw [hcomp]; exact nameSpacesOf_composeDocument ..
  · exact List.length_map ..
  · rw [List.map_map]; rfl
  · intro j hj1 hj2
    simp [List.get_eq_getElem, List.getElem_map]

/-- Witness for the amended C1 at the concrete one-element batch. -/
theorem claim_C1_witness :
    ∃ d nsOut, (docsOf sampleEnv).get? 0 = some d ∧
      nameSpacesOf d = some (.map nsOut) ∧
      nsOut.length = sampleMso.disclosure_map.length ∧
      nsOut.map Prod.fst =
        sampleMso.disclosure_map.map (fun p => CborValue.str p.1) ∧
      ∀ j (hj1 : j < nsOut.length)
        (hj2 : j < sampleMso.disclosure_map.length),
        (nsOut.get ⟨j, hj1⟩).2 =
          .arr ((sampleMso.disclosure_map.get ⟨j, hj2⟩).2.map (fun q =>
            CborValue.tag 24 (.map [(.int q.1, q.2)]))) :=
  claim_C1_amended sampleCollab sampleOps sampleIssuer [sampleDoc] sampleDki
    none sampleSt1 sampleEnv 0 (by decide) (.map sampleData) sampleMso
    rfl rfl rfl

/-- Whether a character is a lowercase hexadecimal digit. -/
def isLowerHexDigit (c : Char) : Bool :=
  (48 ≤ c.toNat && c.toNat ≤ 57) || (97 ≤ c.toNat && c.toNat ≤ 102)

/-- Claim C6: `dumps` is exactly `hexlify` of the bytes `dump` returns on
the same stored envelope, both read only the stored envelope (two issuers
with the same `signed` serialize identically, so repeated calls are
byte-identical), and `hexlify` emits only lowercase hexadecimal digits. -/
theorem claim_C6 (iss iss2 : MdocCborIssuer) (h : iss.signed = iss2.signed) :
    iss.dumps = hexlify iss.dump ∧
    iss.dump = iss2.dump ∧
    iss.dumps = iss2.dumps ∧
    ∀ b : Fin 256, isLowerHexDigit (hexDigitChar (b.val / 16)) = true ∧
      isLowerHexDigit (hexDigitChar (b.val % 16)) = true := by
  refine ⟨rfl, ?_, ?_, ?_⟩
  · unfold MdocCborIssuer.dump; rw [h]
  · unfold MdocCborIssuer.dumps; rw [h]
  · decide

/-- Witness for C6: two concrete issuers with the same stored envelope. -/
theorem claim_C6_witness :
    sampleIssuer.dumps = hexlify sampleIssuer.dump ∧
    sampleIssuer.dump = sampleIssuer2.dump :=
  ⟨(claim_C6 sampleIssuer sampleIssuer2 rfl).1,
   (claim_C6 sampleIssuer sampleIssuer2 rfl).2.1⟩

/-- The spec's default empty envelope {version: "1.0", documents: [],
status: 0}, written from the spec's words to compare against what the
code actually serializes before any `new` call. -/
def defaultEmptyEnvelope : CborValue :=
  .map [(.str "version", .str "1.0"),
        (.str "documents", .arr []),
        (.str "status", .int 0)]

/-- Counterexample to C7 as stated: on a freshly constructed issuer,
`dump`/`dumps` neither fail nor serialize the default envelope — they
serialize the initial `signed = {}`, the single byte 0xa0 / hex "a0",
which differs from the encoding of {version:"1.0",documents:[],status:0}. -/
theorem claim_C7_counterexample :
    MdocCborIssuer.init sampleOps (.cose sampleKey) = .ok sampleIssuer ∧
    sampleIssuer.dump = [160] ∧
    cborEncode defaultEmptyEnvelope ≠ [160] ∧
    sampleIssuer.dumps = "a0" ∧
    hexlify (cborEncode defaultEmptyEnvelope) ≠ "a0" :=
  ⟨rfl, by decide, by decide, by decide, by decide⟩

/-- Claim C7 (amended): `dump`/`dumps` on any freshly constructed issuer
never fail; they serialize the initial stored value, the empty mapping {}
(CBOR byte 0xa0, hex "a0"), which is not the encoding of the default
envelope {version: "1.0", documents: [], status: 0}. -/
theorem claim_C7_amended (ops : PycoseOps) (pk : PrivateKeyInput)
    (iss : MdocCborIssuer)
    (h : MdocCborIssuer.init ops pk = .ok iss) :
    iss.dump = [160] ∧ iss.dumps = "a0" ∧
    iss.dump ≠ cborEncode defaultEmptyEnvelope := by
  have hsig : iss.signed = .map [] := by
    cases pk with
    | dict d => injection h with h; rw [← h]
    | ec2 k => injection h with h; rw [← h]
    | cose k => injection h with h; rw [← h]
    | other s => exact Except.noConfusion h
  refine ⟨?_, ?_, ?_⟩
  · unfold MdocCborIssuer.dump; rw [hsig]; decide
  · unfold MdocCborIssuer.dumps; rw [hsig]; decide
  · unfold MdocCborIssuer.dump; rw [hsig]; decide

/-- Witness for the amended C7 on a concrete fresh issuer. -/
theorem claim_C7_witness :
    sampleIssuer.dump = [160] ∧ sampleIssuer.dumps = "a0" ∧
    sampleIssuer.dump ≠ cborEncode defaultEmptyEnvelope :=
  claim_C7_amended sampleOps (.cose sampleKey) sampleIssuer rfl
